import Mathlib

/-!
Shallow embedding of the geospatial proximity logic of the berlin_bus_guide
frontend.  JavaScript numbers are modelled by real numbers.  The embedded
code is:

* `getDistanceFromLatLonInM` and `deg2rad` from the ArticleDetail component
  (src/unnamed/part_000, lines 33-48);
* `nearbyCircles` from the same component (lines 22-30);
* `calculateDistance` (App.tsx lines 387-400) and `findNearbyCircles`
  (App.tsx lines 403-417), the latter reading the module-level mutable
  variable `allCircles` (App.tsx line 317);
* the surrounding module-level state of App.tsx (lines 313-319), needed to
  talk about statefulness, and a small reference-heap model of the
  JavaScript array operations `filter` (allocates a fresh array) and
  `sort` (sorts its receiver in place), needed to talk about mutation.

`Array.prototype.sort` with the comparator `distA - distB` is, by the
ECMAScript specification, a stable sort by the distance key; a stable sort
by a total preorder has a unique result, so it is modelled by the stable
`List.insertionSort` on the relation "distance to the query point is not
larger".
-/

namespace BusGuide

/-- Model of the JavaScript `Math.atan2(y, x)`: the argument of the complex
number `x + y*i`, valued in `(-pi, pi]`, with `atan2 0 0 = 0` exactly as in
JavaScript. -/
noncomputable def atan2 (y x : ℝ) : ℝ := Complex.arg ⟨x, y⟩

/-- Article record as used by the ArticleDetail component: page id, title,
coordinates in decimal degrees, and language code. -/
structure Article where
  pageid : Int
  title : String
  lat : ℝ
  lon : ℝ
  lang : String

/-- Circle record (spec section 3 data model; the api service module that
declares the TypeScript interface is not among the sources): identifier,
display name, center as a `[lat, lon]` pair, radius in meters, display
color, and the assigned article ids. -/
structure Circle where
  id : String
  name : String
  center : ℝ × ℝ
  radius : ℝ
  color : String
  articles : List Int

/-- Model of `deg2rad(deg)` from ArticleDetail (part_000 lines 46-48):
degrees to radians. -/
noncomputable def deg2rad (deg : ℝ) : ℝ := deg * (Real.pi / 180)

/-- Model of `getDistanceFromLatLonInM(lat1, lon1, lat2, lon2)` from
ArticleDetail (part_000 lines 33-44): the first copy of the haversine
formula, on a sphere of radius 6371000 meters. -/
noncomputable def getDistanceFromLatLonInM (lat1 lon1 lat2 lon2 : ℝ) : ℝ :=
  let R : ℝ := 6371000
  let dLat := deg2rad (lat2 - lat1)
  let dLon := deg2rad (lon2 - lon1)
  let a := Real.sin (dLat / 2) * Real.sin (dLat / 2) +
    Real.cos (deg2rad lat1) * Real.cos (deg2rad lat2) *
    Real.sin (dLon / 2) * Real.sin (dLon / 2)
  let c := 2 * atan2 (Real.sqrt a) (Real.sqrt (1 - a))
  let d := R * c
  d

/-- Model of `calculateDistance(lat1, lon1, lat2, lon2)` from App.tsx lines
387-400: the second copy of the haversine formula. -/
noncomputable def calculateDistance (lat1 lon1 lat2 lon2 : ℝ) : ℝ :=
  let R : ℝ := 6371000
  let phi1 := lat1 * (Real.pi / 180)
  let phi2 := lat2 * (Real.pi / 180)
  let dPhi := (lat2 - lat1) * (Real.pi / 180)
  let dLam := (lon2 - lon1) * (Real.pi / 180)
  let a := Real.sin (dPhi / 2) * Real.sin (dPhi / 2) +
    Real.cos phi1 * Real.cos phi2 *
    Real.sin (dLam / 2) * Real.sin (dLam / 2)
  let c := 2 * atan2 (Real.sqrt a) (Real.sqrt (1 - a))
  R * c

/-- Haversine intermediate value `a`, shared by both distance
implementations (they are definitionally equal to
`6371000 * (2 * atan2 (sqrt a) (sqrt (1 - a)))` over it). -/
noncomputable def havA (lat1 lon1 lat2 lon2 : ℝ) : ℝ :=
  Real.sin ((lat2 - lat1) * (Real.pi / 180) / 2) *
      Real.sin ((lat2 - lat1) * (Real.pi / 180) / 2) +
    Real.cos (lat1 * (Real.pi / 180)) * Real.cos (lat2 * (Real.pi / 180)) *
    Real.sin ((lon2 - lon1) * (Real.pi / 180) / 2) *
    Real.sin ((lon2 - lon1) * (Real.pi / 180) / 2)

/-- Haversine distance exactly as the spec words it (section 4.1): with
`dPhi = radians(lat2 - lat1)`, `dLam = radians(lon2 - lon1)`,
`a = sin^2(dPhi/2) + cos(phi1) * cos(phi2) * sin^2(dLam/2)`,
`c = 2 * atan2(sqrt a, sqrt (1 - a))`, and result `R * c` with
`R = 6371000`. -/
noncomputable def haversineSpec (lat1 lon1 lat2 lon2 : ℝ) : ℝ :=
  let dPhi := deg2rad (lat2 - lat1)
  let dLam := deg2rad (lon2 - lon1)
  let phi1 := deg2rad lat1
  let phi2 := deg2rad lat2
  let a := Real.sin (dPhi / 2) ^ 2 +
    Real.cos phi1 * Real.cos phi2 * Real.sin (dLam / 2) ^ 2
  let c := 2 * atan2 (Real.sqrt a) (Real.sqrt (1 - a))
  6371000 * c

/-- Filter callback of `findNearbyCircles` (App.tsx lines 404-410): a circle
is kept when the distance from the query point to its center is at most
1000 meters or at most the radius of the circle. -/
noncomputable def includeCircle (lat lon : ℝ) (circle : Circle) : Bool :=
  let distance := calculateDistance lat lon circle.center.1 circle.center.2
  decide (distance ≤ 1000) || decide (distance ≤ circle.radius)

/-- Distance key used by the sort comparator of `findNearbyCircles`
(App.tsx lines 411-416): distance from the query point to the circle
center. -/
noncomputable def distTo (lat lon : ℝ) (c : Circle) : ℝ :=
  calculateDistance lat lon c.center.1 c.center.2

noncomputable instance distToDecidableRel (lat lon : ℝ) :
    DecidableRel (fun a b : Circle => distTo lat lon a ≤ distTo lat lon b) :=
  fun _ _ => inferInstanceAs (Decidable (_ ≤ _))

/-- Body of `findNearbyCircles(lat, lon)` (App.tsx lines 403-417) over an
explicit circles list: filter by `includeCircle`, then sort ascending by
distance to the query point (stable sort, see the module doc). -/
noncomputable def findNearbyCircles (lat lon : ℝ) (allCircles : List Circle) :
    List Circle :=
  List.insertionSort (fun a b => distTo lat lon a ≤ distTo lat lon b)
    (allCircles.filter (includeCircle lat lon))

/-- Module-level mutable state of App.tsx (lines 313-319): the JavaScript
`var` declarations `selectedArticles`, `selectedArticleTitles`,
`currentCircleId`, `circleData`, `allCircles`,
`currentArticleForAssignment`, and `currentArticleLocation`. -/
structure ModuleState where
  selectedArticles : List Int
  selectedArticleTitles : List (Int × String)
  currentCircleId : Option String
  circleData : Option Circle
  allCircles : List Circle
  currentArticleForAssignment : Option (Int × String)
  currentArticleLocation : Option (ℝ × ℝ)

/-- Model of the source function `findNearbyCircles(lat, lon)` with its
actual signature (App.tsx line 403): the circle collection is not a
parameter, it is read from the module-level variable `allCircles`. -/
noncomputable def findNearbyCirclesApp (lat lon : ℝ) (st : ModuleState) :
    List Circle :=
  findNearbyCircles lat lon st.allCircles

/-- Containment predicate of the `nearbyCircles` filter in ArticleDetail
(part_000 lines 22-30): the distance between the circle center and the
query point is at most the circle radius.  The spec names this operation
`isWithinCircle`; the argument order of the distance call is the one of the
source (circle center first). -/
noncomputable def isWithinCircle (point : ℝ × ℝ) (circle : Circle) : Bool :=
  decide (getDistanceFromLatLonInM circle.center.1 circle.center.2
    point.1 point.2 ≤ circle.radius)

/-- Model of the `nearbyCircles` computation in ArticleDetail (part_000
lines 22-30): filter the circles prop by containment of the article
coordinates; no sorting. -/
noncomputable def nearbyCircles (article : Article) (circles : List Circle) :
    List Circle :=
  circles.filter (fun circle => isWithinCircle (article.lat, article.lon) circle)

/-- Reference into the array heap: arrays are identified by index. -/
abbrev ArrayRef := Nat

/-- Heap of JavaScript circle arrays, for reasoning about allocation and in
place mutation. -/
structure Heap where
  arrays : List (List Circle)

/-- Contents of the array a reference points to. -/
def Heap.get (h : Heap) (r : ArrayRef) : List Circle :=
  h.arrays.getD r []

/-- Allocation of a fresh array holding `l`: the new reference points past
the current arrays. -/
def Heap.alloc (h : Heap) (l : List Circle) : ArrayRef × Heap :=
  (h.arrays.length, ⟨h.arrays ++ [l]⟩)

/-- Overwriting the array a reference points to. -/
def Heap.set (h : Heap) (r : ArrayRef) (l : List Circle) : Heap :=
  ⟨h.arrays.set r l⟩

/-- Model of `Array.prototype.filter`: reads the receiver and allocates a
fresh array with the kept elements. -/
noncomputable def filterAlloc (p : Circle → Bool) (r : ArrayRef) (h : Heap) :
    ArrayRef × Heap :=
  h.alloc ((h.get r).filter p)

/-- Model of `Array.prototype.sort`: sorts the receiver in place and
returns the same reference. -/
noncomputable def sortInPlace (le : Circle → Circle → Prop) [DecidableRel le]
    (r : ArrayRef) (h : Heap) : ArrayRef × Heap :=
  (r, h.set r (List.insertionSort le (h.get r)))

/-- Heap-level model of `findNearbyCircles` (App.tsx lines 403-417): the
receiver chain `allCircles.filter(...).sort(...)` filters the input array
into a fresh array and then sorts that fresh array in place. -/
noncomputable def findNearbyCirclesHeap (lat lon : ℝ) (r : ArrayRef)
    (h : Heap) : ArrayRef × Heap :=
  let fh := filterAlloc (includeCircle lat lon) r h
  sortInPlace (fun a b => distTo lat lon a ≤ distTo lat lon b) fh.1 fh.2

/-- Circle at the origin with radius 5, used as a concrete input. -/
def originCircle : Circle := ⟨"origin", "Origin", (0, 0), 5, "blue", []⟩

/-- Module state with an empty circle collection. -/
def emptyState : ModuleState := ⟨[], [], none, none, [], none, none⟩

/-- Module state that differs from `emptyState` in every field except
`allCircles`. -/
def emptyStateVariant : ModuleState :=
  ⟨[7], [(7, "seven")], some "c7", some originCircle, [],
    some (7, "seven"), some (1, 2)⟩

/-- Module state whose circle collection holds exactly `originCircle`. -/
def oneCircleState : ModuleState :=
  ⟨[], [], none, none, [originCircle], none, none⟩

/-! ## Lemmas about the distance formula -/

theorem getDistanceFromLatLonInM_eq (lat1 lon1 lat2 lon2 : ℝ) :
    getDistanceFromLatLonInM lat1 lon1 lat2 lon2 =
      6371000 * (2 * atan2 (Real.sqrt (havA lat1 lon1 lat2 lon2))
        (Real.sqrt (1 - havA lat1 lon1 lat2 lon2))) :=
  rfl

theorem calculateDistance_eq (lat1 lon1 lat2 lon2 : ℝ) :
    calculateDistance lat1 lon1 lat2 lon2 =
      6371000 * (2 * atan2 (Real.sqrt (havA lat1 lon1 lat2 lon2))
        (Real.sqrt (1 - havA lat1 lon1 lat2 lon2))) :=
  rfl

theorem havA_self (lat lon : ℝ) : havA lat lon lat lon = 0 := by
  simp [havA]

theorem havA_symm (lat1 lon1 lat2 lon2 : ℝ) :
    havA lat2 lon2 lat1 lon1 = havA lat1 lon1 lat2 lon2 := by
  unfold havA
  have h1 : (lat1 - lat2) * (Real.pi / 180) / 2 =
      -((lat2 - lat1) * (Real.pi / 180) / 2) := by ring
  have h2 : (lon1 - lon2) * (Real.pi / 180) / 2 =
      -((lon2 - lon1) * (Real.pi / 180) / 2) := by ring
  rw [h1, h2]
  simp only [Real.sin_neg]
  ring

theorem atan2_zero_one : atan2 0 1 = 0 := by
  have h : (⟨1, 0⟩ : ℂ) = 1 := rfl
  rw [atan2, h, Complex.arg_one]

theorem atan2_nonneg (y x : ℝ) (hy : 0 ≤ y) : 0 ≤ atan2 y x :=
  Complex.arg_nonneg_iff.mpr hy

theorem hav_expr_self : 6371000 * (2 * atan2 (Real.sqrt (0 : ℝ))
    (Real.sqrt (1 - 0))) = 0 := by
  rw [Real.sqrt_zero, sub_zero, Real.sqrt_one, atan2_zero_one]
  ring

theorem getDistanceFromLatLonInM_self (lat lon : ℝ) :
    getDistanceFromLatLonInM lat lon lat lon = 0 := by
  rw [getDistanceFromLatLonInM_eq, havA_self, hav_expr_self]

theorem calculateDistance_self (lat lon : ℝ) :
    calculateDistance lat lon lat lon = 0 := by
  rw [calculateDistance_eq, havA_self, hav_expr_self]

theorem getDistanceFromLatLonInM_symm (lat1 lon1 lat2 lon2 : ℝ) :
    getDistanceFromLatLonInM lat1 lon1 lat2 lon2 =
      getDistanceFromLatLonInM lat2 lon2 lat1 lon1 := by
  rw [getDistanceFromLatLonInM_eq, getDistanceFromLatLonInM_eq, havA_symm]

theorem calculateDistance_symm (lat1 lon1 lat2 lon2 : ℝ) :
    calculateDistance lat1 lon1 lat2 lon2 =
      calculateDistance lat2 lon2 lat1 lon1 := by
  rw [calculateDistance_eq, calculateDistance_eq, havA_symm]

theorem getDistanceFromLatLonInM_nonneg (lat1 lon1 lat2 lon2 : ℝ) :
    0 ≤ getDistanceFromLatLonInM lat1 lon1 lat2 lon2 := by
  rw [getDistanceFromLatLonInM_eq]
  have h := atan2_nonneg (Real.sqrt (havA lat1 lon1 lat2 lon2))
    (Real.sqrt (1 - havA lat1 lon1 lat2 lon2)) (Real.sqrt_nonneg _)
  nlinarith

theorem haversineSpec_eq (lat1 lon1 lat2 lon2 : ℝ) :
    haversineSpec lat1 lon1 lat2 lon2 =
      6371000 * (2 * atan2 (Real.sqrt (havA lat1 lon1 lat2 lon2))
        (Real.sqrt (1 - havA lat1 lon1 lat2 lon2))) := by
  simp only [haversineSpec, deg2rad]
  have ha : Real.sin ((lat2 - lat1) * (Real.pi / 180) / 2) ^ 2 +
      Real.cos (lat1 * (Real.pi / 180)) * Real.cos (lat2 * (Real.pi / 180)) *
        Real.sin ((lon2 - lon1) * (Real.pi / 180) / 2) ^ 2 =
      havA lat1 lon1 lat2 lon2 := by
    unfold havA
    ring
  rw [ha]

/-! ## Stability of the filter-and-sort pipeline -/

theorem filter_orderedInsert_key {α : Type} (r : α → α → Prop) [DecidableRel r]
    (q : α → Bool) (hq : ∀ x y, q x = true → q y = true → r x y) (c : α)
    (l : List α) :
    (List.orderedInsert r c l).filter q =
      if q c then c :: l.filter q else l.filter q := by
  induction l with
  | nil => simp [List.orderedInsert, List.filter_cons]
  | cons b bs ih =>
    rw [List.orderedInsert]
    by_cases hrcb : r c b
    · rw [if_pos hrcb]
      by_cases hqc : q c = true
      · simp [List.filter_cons, hqc]
      · simp [List.filter_cons, hqc]
    · rw [if_neg hrcb]
      by_cases hqb : q b = true
      · by_cases hqc : q c = true
        · exact absurd (hq c b hqc hqb) hrcb
        · simp [List.filter_cons, hqb, hqc, ih, Bool.of_not_eq_true hqc]
      · simp [List.filter_cons, hqb, ih]

theorem filter_insertionSort_key {α : Type} (r : α → α → Prop) [DecidableRel r]
    (q : α → Bool) (hq : ∀ x y, q x = true → q y = true → r x y) :
    ∀ l : List α, (List.insertionSort r l).filter q = l.filter q
  | [] => rfl
  | c :: cs => by
    rw [List.insertionSort, filter_orderedInsert_key r q hq,
      filter_insertionSort_key r q hq cs, List.filter_cons]

/-! ## Claim theorems about the distance functions -/

/-- Claim C2: both duplicated implementations, `getDistanceFromLatLonInM`
(ArticleDetail) and `calculateDistance` (App.tsx), compute exactly the
haversine formula of the spec: `a = sin^2(dPhi/2) + cos(phi1) * cos(phi2) *
sin^2(dLam/2)`, `c = 2 * atan2(sqrt a, sqrt (1 - a))`, result
`6371000 * c`. -/
theorem distance_implementations_match_spec (lat1 lon1 lat2 lon2 : ℝ) :
    getDistanceFromLatLonInM lat1 lon1 lat2 lon2 =
        haversineSpec lat1 lon1 lat2 lon2 ∧
      calculateDistance lat1 lon1 lat2 lon2 =
        haversineSpec lat1 lon1 lat2 lon2 := by
  rw [haversineSpec_eq, getDistanceFromLatLonInM_eq, calculateDistance_eq]
  exact ⟨rfl, rfl⟩

/-- Claim C7: for identical input points both distance implementations
return exactly 0. -/
theorem greatCircleDistance_self_eq_zero (lat lon : ℝ) :
    getDistanceFromLatLonInM lat lon lat lon = 0 ∧
      calculateDistance lat lon lat lon = 0 :=
  ⟨getDistanceFromLatLonInM_self lat lon, calculateDistance_self lat lon⟩

/-- Claim C8: both distance implementations are symmetric in their two
input points; over the real-number model the equality is exact. -/
theorem greatCircleDistance_symm (lat1 lon1 lat2 lon2 : ℝ) :
    getDistanceFromLatLonInM lat1 lon1 lat2 lon2 =
        getDistanceFromLatLonInM lat2 lon2 lat1 lon1 ∧
      calculateDistance lat1 lon1 lat2 lon2 =
        calculateDistance lat2 lon2 lat1 lon1 :=
  ⟨getDistanceFromLatLonInM_symm lat1 lon1 lat2 lon2,
    calculateDistance_symm lat1 lon1 lat2 lon2⟩

/-! ## Claim theorems about findNearbyCircles -/

/-- Claim C1: a circle is in the output of `findNearbyCircles` exactly when
it is among the supplied circles and the distance from the query point to
its center is at most the threshold of 1000 meters or at most the radius of
the circle; each disjunct is independently sufficient.  The threshold is
the hard-coded 1000 of App.tsx line 410, which is the default the spec
names. -/
theorem findNearbyCircles_mem_iff (lat lon : ℝ) (circles : List Circle)
    (c : Circle) :
    c ∈ findNearbyCircles lat lon circles ↔
      c ∈ circles ∧
        (calculateDistance lat lon c.center.1 c.center.2 ≤ 1000 ∨
          calculateDistance lat lon c.center.1 c.center.2 ≤ c.radius) := by
  unfold findNearbyCircles
  rw [List.mem_insertionSort, List.mem_filter]
  simp [includeCircle]

/-- Claim C3: the output of `findNearbyCircles` is sorted by non-decreasing
distance to the query point, and circles at equal distance keep their
relative input order: for every distance value `d`, the subsequence of the
output at distance `d` equals the subsequence of the (order-preserving)
filtered input at distance `d`. -/
theorem findNearbyCircles_sorted_stable (lat lon : ℝ)
    (circles : List Circle) :
    List.Sorted (fun a b => distTo lat lon a ≤ distTo lat lon b)
        (findNearbyCircles lat lon circles) ∧
      ∀ d : ℝ,
        (findNearbyCircles lat lon circles).filter
            (fun c => decide (distTo lat lon c = d)) =
          (circles.filter (includeCircle lat lon)).filter
            (fun c => decide (distTo lat lon c = d)) := by
  constructor
  · haveI : IsTotal Circle (fun a b => distTo lat lon a ≤ distTo lat lon b) :=
      ⟨fun a b => le_total _ _⟩
    haveI : IsTrans Circle (fun a b => distTo lat lon a ≤ distTo lat lon b) :=
      ⟨fun _ _ _ hab hbc => le_trans hab hbc⟩
    exact List.sorted_insertionSort _ _
  · intro d
    unfold findNearbyCircles
    refine filter_insertionSort_key _ _ (fun x y hx hy => ?_) _
    have hx' := of_decide_eq_true hx
    have hy' := of_decide_eq_true hy
    show distTo lat lon x ≤ distTo lat lon y
    rw [hx', hy']

/-! ## Claim theorems about containment -/

/-- Claim C4: the containment test returns true exactly when the distance
from the point to the circle center (in the point-first argument order of
the claim; the source computes it center-first, and the formula is
symmetric) is at most the circle radius, boundary equality included. -/
theorem isWithinCircle_iff (p : ℝ × ℝ) (c : Circle) :
    isWithinCircle p c = true ↔
      getDistanceFromLatLonInM p.1 p.2 c.center.1 c.center.2 ≤ c.radius := by
  unfold isWithinCircle
  rw [decide_eq_true_eq, getDistanceFromLatLonInM_symm]

/-- Claim C5 counterexample: a circle of radius 0 contains the point at its
own center, because the containment comparison is non-strict; so a radius
that is merely ≤ 0 does not make the containment test universally false. -/
theorem zero_radius_circle_contains_center :
    (Circle.mk "z" "Zero" (0, 0) 0 "red" []).radius ≤ 0 ∧
      isWithinCircle (0, 0) (Circle.mk "z" "Zero" (0, 0) 0 "red" []) = true :=
  ⟨le_refl 0, decide_eq_true (le_of_eq (getDistanceFromLatLonInM_self 0 0))⟩

/-- Claim C5 amended: for strictly negative radius the containment test is
false at every point, the distance being non-negative; with radius exactly
0 the circle still contains the points at distance 0 from its center, such
as the center itself. -/
theorem neg_radius_never_contains (p : ℝ × ℝ) (c : Circle)
    (h : c.radius < 0) : isWithinCircle p c = false := by
  unfold isWithinCircle
  apply decide_eq_false
  intro hle
  have h0 := getDistanceFromLatLonInM_nonneg c.center.1 c.center.2 p.1 p.2
  linarith

/-- Claim C5 witness: the amended theorem applied to a circle of radius -1
and a concrete point. -/
theorem neg_radius_never_contains_witness :
    (Circle.mk "n" "Neg" (0, 0) (-1) "red" []).radius < 0 ∧
      isWithinCircle (3, 4) (Circle.mk "n" "Neg" (0, 0) (-1) "red" []) =
        false :=
  ⟨by norm_num, neg_radius_never_contains (3, 4)
    (Circle.mk "n" "Neg" (0, 0) (-1) "red" []) (by norm_num)⟩

/-- Claim C10: the Nearby Circles list of ArticleDetail keeps a circle
exactly when the distance from the article coordinates to the circle center
is at most the radius of that circle — the fixed 1000 meter clause of
`findNearbyCircles` is not applied here — and the output is an
order-preserving sublist of the input circles, not sorted by distance. -/
theorem nearbyCircles_characterization (article : Article)
    (circles : List Circle) :
    (∀ c, c ∈ nearbyCircles article circles ↔
        c ∈ circles ∧
          getDistanceFromLatLonInM article.lat article.lon c.center.1
            c.center.2 ≤ c.radius) ∧
      (nearbyCircles article circles).Sublist circles := by
  constructor
  · intro c
    simp only [nearbyCircles, List.mem_filter, isWithinCircle,
      decide_eq_true_eq]
    rw [getDistanceFromLatLonInM_symm]
  · exact List.filter_sublist _

/-! ## Claim theorems about statefulness -/

theorem includeCircle_origin : includeCircle 0 0 originCircle = true := by
  have h : calculateDistance 0 0 originCircle.center.1
      originCircle.center.2 = 0 := calculateDistance_self 0 0
  simp only [includeCircle, h, Bool.or_eq_true, decide_eq_true_eq]
  left
  norm_num

theorem findNearby_one :
    findNearbyCircles 0 0 [originCircle] = [originCircle] := by
  unfold findNearbyCircles
  have hf : List.filter (includeCircle 0 0) [originCircle] =
      [originCircle] := by
    simp [List.filter_cons, includeCircle_origin]
  rw [hf]
  simp [List.insertionSort, List.orderedInsert]

/-- Claim C6 counterexample: the source function `findNearbyCircles(lat,
lon)` takes only the query coordinates as explicit arguments and reads the
circle collection from the module-level mutable variable `allCircles`
(App.tsx lines 317 and 404): two calls with identical explicit arguments
but different module state return different results, so the operation is
not a pure function of its explicit arguments and it depends on shared
mutable state. -/
theorem findNearbyCircles_reads_module_state :
    findNearbyCirclesApp 0 0 emptyState ≠
      findNearbyCirclesApp 0 0 oneCircleState := by
  have h1 : findNearbyCirclesApp 0 0 emptyState = [] := rfl
  have h2 : findNearbyCirclesApp 0 0 oneCircleState = [originCircle] :=
    findNearby_one
  rw [h1, h2]
  exact fun h => List.noConfusion h

/-- Claim C6 amended: both distance implementations and the containment
filter are pure functions of their explicit arguments; `findNearbyCircles`
is deterministic in its coordinates together with the `allCircles` snapshot
it reads from module state — module states agreeing on `allCircles` give
identical results whatever the other mutable fields hold — and each call
recomputes the result from that snapshot without caching or mutating it. -/
theorem findNearbyCirclesApp_deterministic (lat lon : ℝ)
    (s1 s2 : ModuleState) (h : s1.allCircles = s2.allCircles) :
    findNearbyCirclesApp lat lon s1 = findNearbyCirclesApp lat lon s2 ∧
      findNearbyCirclesApp lat lon s1 =
        findNearbyCircles lat lon s1.allCircles := by
  refine ⟨?_, rfl⟩
  unfold findNearbyCirclesApp
  rw [h]

/-- Claim C6 witness: the amended theorem applied to two concrete module
states that differ in every field except the circle collection. -/
theorem findNearbyCirclesApp_deterministic_witness :
    emptyState.allCircles = emptyStateVariant.allCircles ∧
      (findNearbyCirclesApp 0 0 emptyState =
          findNearbyCirclesApp 0 0 emptyStateVariant ∧
        findNearbyCirclesApp 0 0 emptyState =
          findNearbyCircles 0 0 emptyState.allCircles) :=
  ⟨rfl, findNearbyCirclesApp_deterministic 0 0 emptyState emptyStateVariant
    rfl⟩

/-! ## Claim theorem about allocation and mutation -/

/-- Claim C9: at heap level the call `allCircles.filter(...).sort(...)` of
`findNearbyCircles` returns a freshly allocated array — a reference
distinct from the input reference —, leaves the contents of the input array
untouched (same length, same elements, same order, every circle record
unchanged), and the fresh array holds exactly the filter-and-sort of the
input snapshot. -/
theorem findNearbyCirclesHeap_frame (lat lon : ℝ) (r : ArrayRef) (h : Heap)
    (hr : r < h.arrays.length) :
    (findNearbyCirclesHeap lat lon r h).1 ≠ r ∧
      (findNearbyCirclesHeap lat lon r h).2.get r = h.get r ∧
      (findNearbyCirclesHeap lat lon r h).2.get
          (findNearbyCirclesHeap lat lon r h).1 =
        findNearbyCircles lat lon (h.get r) := by
  have hl : (h.arrays ++ [(h.get r).filter (includeCircle lat lon)]).getD
      h.arrays.length [] = (h.get r).filter (includeCircle lat lon) := by
    rw [List.getD_eq_getElem?_getD, List.getElem?_append_right (le_refl _)]
    simp
  refine ⟨ne_of_gt hr, ?_, ?_⟩
  · show ((h.arrays ++ [(h.get r).filter (includeCircle lat lon)]).set
        h.arrays.length _).getD r [] = h.arrays.getD r []
    rw [List.getD_eq_getElem?_getD, List.getD_eq_getElem?_getD,
      List.getElem?_set_ne (ne_of_gt hr), List.getElem?_append_left hr]
  · have hlen : h.arrays.length <
        (h.arrays ++ [(h.get r).filter (includeCircle lat lon)]).length := by
      simp
    show ((h.arrays ++ [(h.get r).filter (includeCircle lat lon)]).set
        h.arrays.length
        (List.insertionSort (fun a b => distTo lat lon a ≤ distTo lat lon b)
          ((h.arrays ++ [(h.get r).filter (includeCircle lat lon)]).getD
            h.arrays.length []))).getD h.arrays.length [] =
      findNearbyCircles lat lon (h.get r)
    rw [hl, List.getD_eq_getElem?_getD, List.getElem?_set_self hlen]
    rfl

/-- Claim C9 witness: the frame theorem applied to a one-array heap holding
an empty circle list. -/
theorem findNearbyCirclesHeap_frame_witness :
    (0 < (Heap.mk [[]]).arrays.length) ∧
      ((findNearbyCirclesHeap 0 0 0 (Heap.mk [[]])).1 ≠ 0 ∧
        (findNearbyCirclesHeap 0 0 0 (Heap.mk [[]])).2.get 0 =
          (Heap.mk [[]]).get 0 ∧
        (findNearbyCirclesHeap 0 0 0 (Heap.mk [[]])).2.get
            (findNearbyCirclesHeap 0 0 0 (Heap.mk [[]])).1 =
          findNearbyCircles 0 0 ((Heap.mk [[]]).get 0)) :=
  ⟨Nat.zero_lt_one, findNearbyCirclesHeap_frame 0 0 0 (Heap.mk [[]])
    Nat.zero_lt_one⟩

end BusGuide
